import Mathlib

/-!
Verification of the EV-Station User Agent (edge agent for electric-vehicle
charging coordination) against its natural-language specification.

This file gives a shallow embedding of the agent's data model and operations:

* Python floats that only take part in field arithmetic and order comparisons
  are modelled as rationals (`ℚ`);
* timestamps (`datetime.utcnow()`, ISO strings) are modelled as epoch seconds
  (`ℤ`), passed explicitly where the source reads the clock;
* Python `int(x)` truncation toward zero on a float is modelled by `ratTrunc`;
* raising an exception is modelled by `Except`, or — where mutation semantics
  matter — by returning the unchanged state paired with an `Option String`
  error;
* the sqlite-backed sync queue (`sync_queue` table with an AUTOINCREMENT
  primary key) is modelled as a list of rows in insertion (rowid) order plus
  the next id to be assigned;
* the transcendental geodesic helpers (`_haversine`, `_estimate_distance`)
  are kept abstract: their (nonnegative real) output enters the embedded
  functions as an explicit parameter, exactly at the call sites where the
  source consumes their result.

Every definition is translated from the repository source; file and function
names are kept where Lean allows.
-/

/-- Python `int(x)` applied to a real quantity: truncation toward zero. -/
def ratTrunc (q : ℚ) : ℤ := if 0 ≤ q then ⌊q⌋ else -⌊-q⌋

theorem ratTrunc_intCast (m : ℤ) : ratTrunc ((m : ℚ)) = m := by
  unfold ratTrunc
  split_ifs with h
  · exact Int.floor_intCast m
  · have h2 : -(m:ℚ) = ((-m : ℤ) : ℚ) := by push_cast; ring
    rw [h2, Int.floor_intCast]
    ring

theorem ratTrunc_nonpos (q : ℚ) (h : q ≤ 0) : ratTrunc q ≤ 0 := by
  unfold ratTrunc
  split_ifs with h2
  · have h3 : q = 0 := le_antisymm h h2
    simp [h3]
  · have h3 : (0:ℚ) ≤ -q := by linarith
    have h4 := Int.floor_nonneg.mpr h3
    omega

theorem ratTrunc_sixty_mul (m : ℤ) : ratTrunc (((60 * m : ℤ) : ℚ) / 60) = m := by
  have h : (((60 * m : ℤ) : ℚ) / 60) = (m : ℚ) := by push_cast; ring_nf
  rw [h, ratTrunc_intCast]

/-- Python `str.upper()` (the identifiers involved are ASCII). -/
def pyUpper (s : String) : String := ⟨s.data.map Char.toUpper⟩

/-- Python truthiness of an `Optional[str]`: `None` and `""` are falsy. -/
def optStrTruthy : Option String → Bool
  | none => false
  | some s => !s.isEmpty

/-! ## config/ua_config.py — class UAConfig

The configuration constants consumed by the components under verification.
SoC thresholds are fractions; delay thresholds are minutes; the telemetry
timeout is seconds. -/

structure UAConfig where
  poll_interval_sec : ℤ
  error_retry_delay_sec : ℤ
  enable_scheduled_trigger : Bool
  soc_emergency_threshold : ℚ
  soc_high_threshold : ℚ
  soc_medium_threshold : ℚ
  soc_trigger_threshold : ℚ
  minor_delay_threshold_min : ℤ
  major_delay_threshold_min : ℤ
  no_show_threshold_min : ℤ
  telemetry_timeout_sec : ℤ
  default_avg_speed_kmph : ℚ
  max_retries : ℕ
  initial_retry_delay : ℚ
deriving Repr

/-- The literal values of `class UAConfig` in `config/ua_config.py`. -/
def uaConfig : UAConfig :=
  ⟨5, 3, false, 1/10, 1/4, 1/2, 3/10, 5, 15, 30, 60, 40, 3, 1⟩

/-! ## Components/context manager.py -/

inductive UrgencyLevel
  | EMERGENCY
  | HIGH
  | MEDIUM
  | LOW
deriving DecidableEq, Repr

/-- The spec orders `Emergency > High > Medium > Low`; this rank realizes
that order so monotonicity can be stated numerically. -/
def urgencyRank : UrgencyLevel → ℕ
  | .EMERGENCY => 3
  | .HIGH => 2
  | .MEDIUM => 1
  | .LOW => 0

structure LatLon where
  lat : ℚ
  lon : ℚ
deriving DecidableEq, Repr

structure VehicleContext where
  vehicle_id : String
  timestamp : ℤ
  gps_location : LatLon
  state_of_charge : ℚ
  remaining_range_km : ℚ
  destination : Option LatLon
  planned_route : List LatLon
  urgency_level : UrgencyLevel
deriving Repr

namespace ContextManager

/-- `ContextManager.compute_urgency`: urgency classification by the three
ascending SoC thresholds; a boundary value takes the stricter tier. -/
def compute_urgency (cfg : UAConfig) (soc : ℚ) : UrgencyLevel :=
  if soc ≤ cfg.soc_emergency_threshold then .EMERGENCY
  else if soc ≤ cfg.soc_high_threshold then .HIGH
  else if soc ≤ cfg.soc_medium_threshold then .MEDIUM
  else .LOW

/-- `ContextManager.build_vehicle_context`: the context snapshot with the
urgency tier derived from the raw state of charge. -/
def build_vehicle_context (cfg : UAConfig) (vehicle_id : String)
    (timestamp : ℤ) (gps : LatLon) (soc remaining_range : ℚ)
    (destination : Option LatLon) (route : List LatLon) : VehicleContext :=
  ⟨vehicle_id, timestamp, gps, soc, remaining_range, destination, route,
   compute_urgency cfg soc⟩

/-- `ContextManager.should_trigger_charging`: OR of the four trigger
conditions, evaluated in source order with early return.
`distance_to_dest` abstracts `_estimate_distance(ctx.gps_location,
ctx.destination)` (haversine; only consulted when a destination is set);
`raw_user_trigger` is the `user_trigger` field of the re-sampled
`collect_vehicle_data()` reading; `scheduled` abstracts
`_scheduled_departure_trigger()` (the source stub returns `False`). -/
def should_trigger_charging (cfg : UAConfig) (ctx : VehicleContext)
    (distance_to_dest : ℚ) (raw_user_trigger : Bool) (scheduled : Bool) : Bool :=
  if ctx.state_of_charge ≤ cfg.soc_trigger_threshold then true
  else if (match ctx.destination with
           | some _ => decide (ctx.remaining_range_km < distance_to_dest)
           | none => false) then true
  else if raw_user_trigger then true
  else if cfg.enable_scheduled_trigger && scheduled then true
  else false

end ContextManager

/-- Claim C7: for every state-of-charge value, the derived urgency tier is a
pure step function of SoC with the three ascending configured thresholds
(1/10 < 1/4 < 1/2), where a value equal to a threshold belongs to the
stricter tier (soc ≤ emergency gives EMERGENCY, ≤ high gives HIGH, ≤ medium
gives MEDIUM, otherwise LOW), and the tier is monotonically non-increasing
in strictness as SoC grows. -/
theorem C7_urgency_step_function :
    (uaConfig.soc_emergency_threshold < uaConfig.soc_high_threshold ∧
     uaConfig.soc_high_threshold < uaConfig.soc_medium_threshold) ∧
    (∀ soc : ℚ, ContextManager.compute_urgency uaConfig soc = .EMERGENCY ↔
        soc ≤ uaConfig.soc_emergency_threshold) ∧
    (∀ soc : ℚ, ContextManager.compute_urgency uaConfig soc = .HIGH ↔
        uaConfig.soc_emergency_threshold < soc ∧ soc ≤ uaConfig.soc_high_threshold) ∧
    (∀ soc : ℚ, ContextManager.compute_urgency uaConfig soc = .MEDIUM ↔
        uaConfig.soc_high_threshold < soc ∧ soc ≤ uaConfig.soc_medium_threshold) ∧
    (∀ soc : ℚ, ContextManager.compute_urgency uaConfig soc = .LOW ↔
        uaConfig.soc_medium_threshold < soc) ∧
    (∀ s1 s2 : ℚ, s1 ≤ s2 →
        urgencyRank (ContextManager.compute_urgency uaConfig s2) ≤
          urgencyRank (ContextManager.compute_urgency uaConfig s1)) := by
  have heh : uaConfig.soc_emergency_threshold < uaConfig.soc_high_threshold := by
    norm_num [uaConfig]
  have hhm : uaConfig.soc_high_threshold < uaConfig.soc_medium_threshold := by
    norm_num [uaConfig]
  refine ⟨⟨heh, hhm⟩, ?_, ?_, ?_, ?_, ?_⟩
  · intro soc
    constructor
    · intro h
      simp only [ContextManager.compute_urgency] at h
      split_ifs at h with h1 h2 h3
      exact h1
    · intro h
      simp only [ContextManager.compute_urgency]
      rw [if_pos h]
  · intro soc
    constructor
    · intro h
      simp only [ContextManager.compute_urgency] at h
      split_ifs at h with h1 h2 h3
      exact ⟨not_le.mp h1, h2⟩
    · rintro ⟨ha, hb⟩
      simp only [ContextManager.compute_urgency]
      rw [if_neg (not_le.mpr ha), if_pos hb]
  · intro soc
    constructor
    · intro h
      simp only [ContextManager.compute_urgency] at h
      split_ifs at h with h1 h2 h3
      exact ⟨not_le.mp h2, h3⟩
    · rintro ⟨ha, hb⟩
      simp only [ContextManager.compute_urgency]
      rw [if_neg (not_le.mpr (lt_trans heh ha)), if_neg (not_le.mpr ha), if_pos hb]
  · intro soc
    constructor
    · intro h
      simp only [ContextManager.compute_urgency] at h
      split_ifs at h with h1 h2 h3
      exact not_le.mp h3
    · intro ha
      simp only [ContextManager.compute_urgency]
      rw [if_neg (not_le.mpr (lt_trans (lt_trans heh hhm) ha)),
        if_neg (not_le.mpr (lt_trans hhm ha)), if_neg (not_le.mpr ha)]
  · intro s1 s2 h
    simp only [ContextManager.compute_urgency, uaConfig]
    norm_num only
    split_ifs <;> first
      | decide
      | (exfalso; linarith)

/-- Claim C7 witness: the theorem applied at concrete inputs — in
particular the monotone part at soc values 1/5 ≤ 3/10. -/
theorem C7_urgency_witness :
    urgencyRank (ContextManager.compute_urgency uaConfig (3/10)) ≤
      urgencyRank (ContextManager.compute_urgency uaConfig (1/5)) :=
  C7_urgency_step_function.2.2.2.2.2 (1/5) (3/10) (by norm_num)

/-- Claim C8: whenever the context's state of charge is at or below the
configured trigger threshold, `should_trigger_charging` returns `true`
regardless of the destination/range condition, the manual trigger flag
and the scheduled-departure predicate. -/
theorem C8_soc_trigger_dominates (cfg : UAConfig) (ctx : VehicleContext)
    (distance_to_dest : ℚ) (raw_user_trigger scheduled : Bool)
    (h : ctx.state_of_charge ≤ cfg.soc_trigger_threshold) :
    ContextManager.should_trigger_charging cfg ctx distance_to_dest
      raw_user_trigger scheduled = true := by
  simp [ContextManager.should_trigger_charging, h]

/-- A concrete low-charge vehicle context used by witnesses: soc = 1/5,
with a destination set, ample range deficit, no manual trigger. -/
def sampleLowSocContext : VehicleContext :=
  ⟨"veh-1", 0, ⟨13, 77⟩, 1/5, 120, some ⟨12, 77⟩, [], .HIGH⟩

/-- Claim C8 witness: the theorem applied at the configured threshold 3/10
with soc 1/5 and every other condition false. -/
theorem C8_soc_trigger_witness :
    ContextManager.should_trigger_charging uaConfig sampleLowSocContext
      999 false false = true :=
  C8_soc_trigger_dominates uaConfig sampleLowSocContext 999 false false
    (by norm_num [sampleLowSocContext, uaConfig])

/-! ## models/reservation_models.py -/

inductive ReservationStatus
  | PENDING
  | CONFIRMED
  | ACTIVE
  | COMPLETED
  | CANCELLED
  | NO_SHOW
  | FAILED
deriving DecidableEq, Repr

inductive CancellationReason
  | USER_CANCELLED
  | DELAY
  | FAULT
  | NO_SHOW
  | SYSTEM
deriving DecidableEq, Repr

structure Reservation where
  reservation_id : String
  station_id : String
  user_id : String
  vehicle_id : String
  slot_id : String
  slot_start_time_iso : String
  slot_end_time_iso : String
  reserved_price : ℚ
  status : ReservationStatus
  created_at : ℤ
  activated_at : Option ℤ
  completed_at : Option ℤ
  cancelled_at : Option ℤ
  cancellation_reason : Option CancellationReason
deriving Repr

namespace Reservation

/-- `Reservation.mark_active`. The Python method mutates `self`; a failed
guard raises `ValueError` before any assignment, so the embedded function
returns the state after the call together with the raised message (if any):
on failure the state component is the unchanged input. -/
def mark_active (r : Reservation) (now : ℤ) : Reservation × Option String :=
  if r.status ≠ .CONFIRMED then
    (r, some "Only CONFIRMED reservation can become ACTIVE")
  else
    ({r with status := .ACTIVE, activated_at := some now}, none)

/-- `Reservation.mark_completed`. -/
def mark_completed (r : Reservation) (now : ℤ) : Reservation × Option String :=
  if r.status ≠ .ACTIVE then
    (r, some "Only ACTIVE reservation can be completed")
  else
    ({r with status := .COMPLETED, completed_at := some now}, none)

/-- `Reservation.mark_cancelled`: the guard only rejects statuses
`COMPLETED` and `CANCELLED`. -/
def mark_cancelled (r : Reservation) (reason : CancellationReason) (now : ℤ) :
    Reservation × Option String :=
  if r.status = .COMPLETED ∨ r.status = .CANCELLED then
    (r, some "Reservation already finalized")
  else
    ({r with
        status := .CANCELLED,
        cancellation_reason := some reason,
        cancelled_at := some now}, none)

/-- `Reservation.mark_no_show`. -/
def mark_no_show (r : Reservation) (now : ℤ) : Reservation × Option String :=
  if r.status ≠ .CONFIRMED then
    (r, some "Only CONFIRMED reservation can be NO_SHOW")
  else
    ({r with status := .NO_SHOW, cancelled_at := some now}, none)

end Reservation

/-- A reservation currently in the ACTIVE state. -/
def sampleActiveReservation : Reservation :=
  ⟨"res-1", "st-1", "user-1", "veh-1", "slot-1", "2026-01-01T10:00:00",
   "2026-01-01T11:00:00", 10, .ACTIVE, 0, some 1, none, none, none⟩

/-- A reservation currently in the CONFIRMED state. -/
def sampleConfirmedReservation : Reservation :=
  ⟨"res-2", "st-1", "user-1", "veh-1", "slot-2", "2026-01-01T12:00:00",
   "2026-01-01T13:00:00", 10, .CONFIRMED, 0, none, none, none, none⟩

/-- Claim C3 counterexample: an ACTIVE reservation can be cancelled —
`mark_cancelled` succeeds (raises nothing) and moves the status
Active→Cancelled, a transition the claim says must fail. -/
theorem C3_counterexample :
    (Reservation.mark_cancelled sampleActiveReservation .USER_CANCELLED 7).2 = none ∧
    (Reservation.mark_cancelled sampleActiveReservation .USER_CANCELLED 7).1.status =
      .CANCELLED :=
  ⟨rfl, rfl⟩

/-- Claim C3 (amended): `mark_active` succeeds exactly from Confirmed,
`mark_completed` exactly from Active, `mark_no_show` exactly from
Confirmed, but `mark_cancelled` succeeds from every status except
Completed and Cancelled (including Active, Pending, NoShow and Failed);
each failing transition raises an invalid-transition error and leaves the
reservation (status and all other fields) unchanged. -/
theorem C3_amended_transitions (r : Reservation) (reason : CancellationReason)
    (now : ℤ) :
    (r.status = .CONFIRMED →
      Reservation.mark_active r now =
        ({r with status := .ACTIVE, activated_at := some now}, none)) ∧
    (r.status ≠ .CONFIRMED →
      Reservation.mark_active r now =
        (r, some "Only CONFIRMED reservation can become ACTIVE")) ∧
    (r.status = .ACTIVE →
      Reservation.mark_completed r now =
        ({r with status := .COMPLETED, completed_at := some now}, none)) ∧
    (r.status ≠ .ACTIVE →
      Reservation.mark_completed r now =
        (r, some "Only ACTIVE reservation can be completed")) ∧
    (r.status = .CONFIRMED →
      Reservation.mark_no_show r now =
        ({r with status := .NO_SHOW, cancelled_at := some now}, none)) ∧
    (r.status ≠ .CONFIRMED →
      Reservation.mark_no_show r now =
        (r, some "Only CONFIRMED reservation can be NO_SHOW")) ∧
    (r.status ≠ .COMPLETED → r.status ≠ .CANCELLED →
      Reservation.mark_cancelled r reason now =
        ({r with
            status := .CANCELLED,
            cancellation_reason := some reason,
            cancelled_at := some now}, none)) ∧
    ((r.status = .COMPLETED ∨ r.status = .CANCELLED) →
      Reservation.mark_cancelled r reason now =
        (r, some "Reservation already finalized")) := by
  refine ⟨?_, ?_, ?_, ?_, ?_, ?_, ?_, ?_⟩ <;> intro h
  · simp [Reservation.mark_active, h]
  · simp [Reservation.mark_active, h]
  · simp [Reservation.mark_completed, h]
  · simp [Reservation.mark_completed, h]
  · simp [Reservation.mark_no_show, h]
  · simp [Reservation.mark_no_show, h]
  · intro h2
    simp [Reservation.mark_cancelled, h, h2]
  · simp [Reservation.mark_cancelled, h]

/-- Claim C3 witness: the amended theorem applied to a CONFIRMED
reservation: Confirmed→Active succeeds. -/
theorem C3_amended_witness :
    Reservation.mark_active sampleConfirmedReservation 3 =
      ({sampleConfirmedReservation with
        status := .ACTIVE, activated_at := some 3}, none) :=
  (C3_amended_transitions sampleConfirmedReservation .USER_CANCELLED 3).1 rfl

/-! ## utils/retry_policy.py — class RetryPolicy

`RetryPolicy.execute(func, *args)` runs `func` up to `max_attempts` times,
sleeping `delay` (multiplied by `backoff_factor` after every failed
non-final attempt) between attempts, re-raising the final failure.
The embedding indexes the outcome of the k-th call of `func` as `f k`
(1-based, matching `range(1, max_attempts + 1)`). A Python loop that
finishes without returning or raising returns `None`; hence the result
type `Except E (Option A) `: `.ok none` is that implicit `None`.
The list component collects the `time.sleep` durations, in order. -/

namespace RetryPolicy

def executeLoop {E A : Type} (f : ℕ → Except E A) (max_attempts : ℕ)
    (backoff_factor : ℚ) : ℕ → ℚ → ℕ → Except E (Option A) × List ℚ
  | _attempt, _delay, 0 => (.ok none, [])
  | attempt, delay, fuel+1 =>
    match f attempt with
    | .ok a => (.ok (some a), [])
    | .error e =>
      if attempt = max_attempts then (.error e, [])
      else
        let rest := executeLoop f max_attempts backoff_factor (attempt+1)
          (delay * backoff_factor) fuel
        (rest.1, delay :: rest.2)

/-- `RetryPolicy.execute`: attempts start at 1 with the initial delay, and
the loop body can run at most `max_attempts` times. -/
def execute {E A : Type} (f : ℕ → Except E A) (max_attempts : ℕ)
    (initial_delay backoff_factor : ℚ) : Except E (Option A) × List ℚ :=
  executeLoop f max_attempts backoff_factor 1 initial_delay max_attempts

theorem executeLoop_allFail {E A : Type} (f : ℕ → Except E A) (err : ℕ → E)
    (max_attempts : ℕ) (fac : ℚ) :
    ∀ fuel attempt (delay : ℚ), attempt + fuel = max_attempts + 1 →
      attempt ≤ max_attempts →
      (∀ k, attempt ≤ k → k ≤ max_attempts → f k = .error (err k)) →
      (executeLoop f max_attempts fac attempt delay fuel).1 =
        .error (err max_attempts) := by
  intro fuel
  induction fuel with
  | zero => intro attempt delay h1 h2 _; omega
  | succ n ih =>
    intro attempt delay h1 h2 hall
    have hf : f attempt = .error (err attempt) := hall attempt le_rfl h2
    by_cases he : attempt = max_attempts
    · subst he
      simp [executeLoop, hf]
    · simp only [executeLoop, hf, if_neg he]
      exact ih (attempt+1) (delay * fac) (by omega) (by omega)
        (fun k hk1 hk2 => hall k (by omega) hk2)

theorem executeLoop_firstSuccess {E A : Type} (f : ℕ → Except E A)
    (max_attempts : ℕ) (fac : ℚ) :
    ∀ fuel attempt (delay : ℚ) k a, attempt + fuel = max_attempts + 1 →
      attempt ≤ k → k ≤ max_attempts → f k = .ok a →
      (∀ j, attempt ≤ j → j < k → ∃ e, f j = .error e) →
      (executeLoop f max_attempts fac attempt delay fuel).1 = .ok (some a) := by
  intro fuel
  induction fuel with
  | zero => intro attempt delay k a h1 h2 h3 _ _; omega
  | succ n ih =>
    intro attempt delay k a h1 h2 h3 hok hfail
    by_cases hak : attempt = k
    · subst hak
      simp [executeLoop, hok]
    · obtain ⟨e, he⟩ := hfail attempt le_rfl (by omega)
      have hne : attempt ≠ max_attempts := by omega
      simp only [executeLoop, he, if_neg hne]
      exact ih (attempt+1) (delay * fac) k a (by omega) (by omega) h3 hok
        (fun j hj1 hj2 => hfail j (by omega) hj2)

theorem executeLoop_ne_none {E A : Type} (f : ℕ → Except E A)
    (max_attempts : ℕ) (fac : ℚ) :
    ∀ fuel attempt (delay : ℚ), attempt + fuel = max_attempts + 1 →
      attempt ≤ max_attempts →
      (executeLoop f max_attempts fac attempt delay fuel).1 ≠ .ok none := by
  intro fuel
  induction fuel with
  | zero => intro attempt delay h1 h2; omega
  | succ n ih =>
    intro attempt delay h1 h2
    cases hf : f attempt with
    | ok a => simp [executeLoop, hf]
    | error e =>
      by_cases he : attempt = max_attempts
      · subst he
        simp [executeLoop, hf]
      · simp only [executeLoop, hf, if_neg he]
        exact ih (attempt+1) (delay * fac) (by omega) (by omega)

theorem executeLoop_congr {E A : Type} (f g : ℕ → Except E A)
    (max_attempts : ℕ) (fac : ℚ) :
    ∀ fuel attempt (delay : ℚ), attempt + fuel = max_attempts + 1 →
      (∀ k, attempt ≤ k → k ≤ max_attempts → f k = g k) →
      executeLoop f max_attempts fac attempt delay fuel =
        executeLoop g max_attempts fac attempt delay fuel := by
  intro fuel
  induction fuel with
  | zero => intro attempt delay _ _; rfl
  | succ n ih =>
    intro attempt delay h1 hfg
    have hle : attempt ≤ max_attempts := by omega
    have hf : f attempt = g attempt := hfg attempt le_rfl hle
    simp only [executeLoop, hf]
    cases g attempt with
    | ok a => rfl
    | error e =>
      by_cases he : attempt = max_attempts
      · simp [he]
      · simp only [if_neg he]
        rw [ih (attempt+1) (delay * fac) (by omega)
          (fun k hk1 hk2 => hfg k (by omega) hk2)]

/-- A list is a prefix of the geometric sequence starting at `delay` with
ratio `fac`. -/
def geomFrom (fac : ℚ) : ℚ → List ℚ → Prop
  | _delay, [] => True
  | delay, d :: rest => d = delay ∧ geomFrom fac (delay * fac) rest

theorem geomFrom_get (fac : ℚ) :
    ∀ (l : List ℚ) (delay : ℚ), geomFrom fac delay l →
      ∀ n (hn : n < l.length), l.get ⟨n, hn⟩ = delay * fac ^ n := by
  intro l
  induction l with
  | nil => intro delay _ n hn; simp at hn
  | cons d rest ih =>
    intro delay hg n hn
    obtain ⟨hd, hrest⟩ := hg
    cases n with
    | zero => simp [hd]
    | succ m =>
      have := ih (delay * fac) hrest m (by simpa using hn)
      simp only [List.get, this]
      rw [pow_succ]
      ring

theorem executeLoop_geom {E A : Type} (f : ℕ → Except E A)
    (max_attempts : ℕ) (fac : ℚ) :
    ∀ fuel attempt (delay : ℚ),
      geomFrom fac delay (executeLoop f max_attempts fac attempt delay fuel).2 := by
  intro fuel
  induction fuel with
  | zero => intro attempt delay; simp [executeLoop, geomFrom]
  | succ n ih =>
    intro attempt delay
    cases hf : f attempt with
    | ok a => simp [executeLoop, hf, geomFrom]
    | error e =>
      by_cases he : attempt = max_attempts
      · subst he
        simp [executeLoop, hf, geomFrom]
      · simp only [executeLoop, hf, if_neg he]
        exact ⟨rfl, ih (attempt+1) (delay * fac)⟩

end RetryPolicy

/-- Claim C5: `RetryPolicy.execute` makes at most `max_attempts` attempts
(the outcome depends only on the first `max_attempts` outcomes of the
wrapped call); if every attempt fails it raises the final attempt's
exception (and in particular never returns the implicit `None`); if the
attempts up to the first success fail and attempt k succeeds, it returns
that attempt's result; and the sleeps between attempts grow geometrically
from `initial_delay` by `backoff_factor`. -/
theorem C5_retry_policy {E A : Type} (f : ℕ → Except E A) (err : ℕ → E)
    (max_attempts : ℕ) (initial_delay backoff_factor : ℚ)
    (hmax : 1 ≤ max_attempts) :
    ((∀ k, 1 ≤ k → k ≤ max_attempts → f k = .error (err k)) →
      (RetryPolicy.execute f max_attempts initial_delay backoff_factor).1 =
        .error (err max_attempts)) ∧
    (∀ k a, 1 ≤ k → k ≤ max_attempts → f k = .ok a →
      (∀ j, 1 ≤ j → j < k → ∃ e, f j = .error e) →
      (RetryPolicy.execute f max_attempts initial_delay backoff_factor).1 =
        .ok (some a)) ∧
    ((RetryPolicy.execute f max_attempts initial_delay backoff_factor).1 ≠
      .ok none) ∧
    (∀ g : ℕ → Except E A, (∀ k, 1 ≤ k → k ≤ max_attempts → f k = g k) →
      RetryPolicy.execute f max_attempts initial_delay backoff_factor =
        RetryPolicy.execute g max_attempts initial_delay backoff_factor) ∧
    (∀ n (hn : n <
        (RetryPolicy.execute f max_attempts initial_delay backoff_factor).2.length),
      (RetryPolicy.execute f max_attempts initial_delay backoff_factor).2.get
          ⟨n, hn⟩ =
        initial_delay * backoff_factor ^ n) := by
  refine ⟨?_, ?_, ?_, ?_, ?_⟩
  · intro hall
    exact RetryPolicy.executeLoop_allFail f err max_attempts backoff_factor
      max_attempts 1 initial_delay (by omega) hmax hall
  · intro k a hk1 hk2 hok hfail
    exact RetryPolicy.executeLoop_firstSuccess f max_attempts backoff_factor
      max_attempts 1 initial_delay k a (by omega) hk1 hk2 hok hfail
  · exact RetryPolicy.executeLoop_ne_none f max_attempts backoff_factor
      max_attempts 1 initial_delay (by omega) hmax
  · intro g hfg
    exact RetryPolicy.executeLoop_congr f g max_attempts backoff_factor
      max_attempts 1 initial_delay (by omega) hfg
  · intro n hn
    exact RetryPolicy.geomFrom_get backoff_factor _ initial_delay
      (RetryPolicy.executeLoop_geom f max_attempts backoff_factor
        max_attempts 1 initial_delay) n hn

/-- The wrapped call used by the C5 witness: fails once, succeeds on the
second attempt. -/
def retrySampleCall : ℕ → Except String ℕ :=
  fun k => if k = 2 then .ok 42 else .error "connection refused"

/-- Claim C5 witness: with the source defaults (3 attempts), a call failing
on attempt 1 and succeeding on attempt 2 makes `execute` return that
attempt's result. -/
theorem C5_retry_witness :
    (RetryPolicy.execute retrySampleCall 3 1 2).1 = .ok (some 42) :=
  (C5_retry_policy retrySampleCall (fun _ => "connection refused") 3 1 2
      (by omega)).2.1 2 42 (by omega) (by omega) rfl
    (fun j h1 h2 => ⟨"connection refused", by
      have hj : j = 1 := by omega
      subst hj
      rfl⟩)

/-! ## storage/database_schema.py and storage/local_cache.py

The `sync_queue` table has columns `(id INTEGER PRIMARY KEY AUTOINCREMENT,
payload TEXT, endpoint TEXT, created_at TEXT)`. It is modelled as the list
of its rows in insertion (rowid) order — which is the scan order of the
bare `SELECT` used by `get_pending_sync_items` — plus the next
AUTOINCREMENT id to be assigned. -/

structure OutboxEntry where
  id : ℕ
  payload : String
  endpoint : String
  created_at : ℤ
deriving DecidableEq, Repr

structure SyncQueue where
  entries : List OutboxEntry
  nextId : ℕ
deriving DecidableEq, Repr

/-- A freshly created `sync_queue` table: no rows, AUTOINCREMENT starts at 1. -/
def emptySyncQueue : SyncQueue := ⟨[], 1⟩

namespace LocalCache

/-- `LocalCache.enqueue_sync`: `INSERT INTO sync_queue (payload, endpoint,
created_at) VALUES (?, ?, ?)`; AUTOINCREMENT assigns the next id. -/
def enqueue_sync (q : SyncQueue) (endpoint : String) (payload : String)
    (now : ℤ) : SyncQueue :=
  ⟨q.entries ++ [⟨q.nextId, payload, endpoint, now⟩], q.nextId + 1⟩

/-- `LocalCache.get_pending_sync_items`:
`SELECT id, payload, endpoint FROM sync_queue`. -/
def get_pending_sync_items (q : SyncQueue) : List OutboxEntry := q.entries

/-- `LocalCache.remove_sync_item`: `DELETE FROM sync_queue WHERE id=?`. -/
def remove_sync_item (q : SyncQueue) (item_id : ℕ) : SyncQueue :=
  ⟨q.entries.filter (fun e => e.id != item_id), q.nextId⟩

end LocalCache

/-! ## storage/server_sync.py — class ServerSync -/

/-- An observable action of a `ServerSync` write path, in program order:
a POST to the backend, or an `INSERT` into the outbox. -/
inductive SyncEvent
  | remoteAttempt (endpoint : String)
  | outboxAppend (endpoint : String)
deriving DecidableEq, Repr

/-- The property claimed of a write path trace: the write is appended to
the outbox before any remote delivery attempt is made — i.e. the first
observable event is an outbox append, ahead of the attempt. -/
def loggedBeforeSend : List SyncEvent → Bool
  | [] => false
  | .outboxAppend _ :: _ => true
  | .remoteAttempt _ :: _ => false

namespace ServerSync

/-- `ServerSync.push_weights`: POST the weight dict to `/save_weights`
first; only if that raises is the payload enqueued to the outbox.
`remote_ok` is whether the POST succeeded (no exception and a 2xx
status); the second component is the trace of observable actions, in
program order. -/
def push_weights (remote_ok : Bool) (q : SyncQueue) (weight_payload : String)
    (now : ℤ) : SyncQueue × List SyncEvent :=
  if remote_ok then
    (q, [.remoteAttempt "save_weights"])
  else
    (LocalCache.enqueue_sync q "save_weights" weight_payload now,
     [.remoteAttempt "save_weights", .outboxAppend "save_weights"])

/-- `ServerSync.push_session`: same shape as `push_weights`, target
`/save_session`. -/
def push_session (remote_ok : Bool) (q : SyncQueue) (session_payload : String)
    (now : ℤ) : SyncQueue × List SyncEvent :=
  if remote_ok then
    (q, [.remoteAttempt "save_session"])
  else
    (LocalCache.enqueue_sync q "save_session" session_payload now,
     [.remoteAttempt "save_session", .outboxAppend "save_session"])

/-- The loop body of `ServerSync.process_sync_queue` over the snapshot
`items`: POST each row to its endpoint; on success `remove_sync_item`
deletes the row, on failure the loop logs, sleeps and continues with the
next row. `deliver` is whether the POST for a row succeeds. Returns the
queue after the pass and the ids attempted, in order. -/
def processLoop (deliver : OutboxEntry → Bool) :
    List OutboxEntry → SyncQueue → SyncQueue × List ℕ
  | [], q => (q, [])
  | e :: rest, q =>
    let q2 := if deliver e then LocalCache.remove_sync_item q e.id else q
    let r := processLoop deliver rest q2
    (r.1, e.id :: r.2)

/-- `ServerSync.process_sync_queue`: snapshot the pending rows, then run
the delivery loop against the live queue. -/
def process_sync_queue (deliver : OutboxEntry → Bool) (q : SyncQueue) :
    SyncQueue × List ℕ :=
  processLoop deliver (LocalCache.get_pending_sync_items q) q

theorem processLoop_attempts (deliver : OutboxEntry → Bool) :
    ∀ (items : List OutboxEntry) (q : SyncQueue),
      (processLoop deliver items q).2 = items.map OutboxEntry.id := by
  intro items
  induction items with
  | nil => intro q; rfl
  | cons e rest ih => intro q; simp [processLoop, ih]

theorem processLoop_nextId (deliver : OutboxEntry → Bool) :
    ∀ (items : List OutboxEntry) (q : SyncQueue),
      (processLoop deliver items q).1.nextId = q.nextId := by
  intro items
  induction items with
  | nil => intro q; rfl
  | cons e rest ih =>
    intro q
    simp only [processLoop]
    rw [ih]
    by_cases hd : deliver e <;> simp [hd, LocalCache.remove_sync_item]

theorem processLoop_entries (deliver : OutboxEntry → Bool) :
    ∀ (items kept : List OutboxEntry) (nextId : ℕ),
      (kept ++ items).Pairwise (fun a b => a.id ≠ b.id) →
      (processLoop deliver items ⟨kept ++ items, nextId⟩).1.entries =
        kept ++ items.filter (fun e => !deliver e) := by
  intro items
  induction items with
  | nil => intro kept n _; simp [processLoop]
  | cons d rest ih =>
    intro kept n hp
    have hp2 : (kept ++ rest).Pairwise (fun a b => a.id ≠ b.id) :=
      List.Pairwise.sublist ((List.sublist_cons_self d rest).append_left kept) hp
    obtain ⟨-, hdr, hkd⟩ := List.pairwise_append.mp hp
    by_cases hd : deliver d
    · have hrm : LocalCache.remove_sync_item ⟨kept ++ d :: rest, n⟩ d.id =
          ⟨kept ++ rest, n⟩ := by
        simp only [LocalCache.remove_sync_item, List.filter_append,
          List.filter_cons]
        have hk : kept.filter (fun e => e.id != d.id) = kept :=
          List.filter_eq_self.mpr (fun a ha => by
            simpa using hkd a ha d (List.mem_cons_self d rest))
        have hr : rest.filter (fun e => e.id != d.id) = rest :=
          List.filter_eq_self.mpr (fun a ha => by
            have := List.rel_of_pairwise_cons hdr ha
            simpa using fun hEq => this hEq.symm)
        simp [hk, hr]
      simp only [processLoop, hd, if_pos, hrm]
      rw [ih kept n hp2]
      simp [hd]
    · simp only [processLoop, hd, if_neg, Bool.false_eq_true, ite_false]
      have hshape : (⟨kept ++ d :: rest, n⟩ : SyncQueue) =
          ⟨(kept ++ [d]) ++ rest, n⟩ := by simp
      rw [hshape, ih (kept ++ [d]) n (by simpa using hp)]
      simp [hd]

end ServerSync

/-- Claim C9: one pass of the sync engine attempts every snapshot entry in
FIFO (insertion) order — a failed entry does not stop the later ones —
removes exactly the entries whose delivery succeeded, leaves the failed
ones in place, and `enqueue_sync` appends at the tail with the strictly
increasing AUTOINCREMENT id (so snapshot order is enqueue order). Stated
for any queue whose row ids are pairwise distinct, which AUTOINCREMENT
guarantees. -/
theorem C9_sync_pass (deliver : OutboxEntry → Bool) (q : SyncQueue)
    (hp : q.entries.Pairwise (fun a b => a.id ≠ b.id)) :
    ((ServerSync.process_sync_queue deliver q).2 =
      q.entries.map OutboxEntry.id) ∧
    ((ServerSync.process_sync_queue deliver q).1.entries =
      q.entries.filter (fun e => !deliver e)) ∧
    ((ServerSync.process_sync_queue deliver q).1.nextId = q.nextId) ∧
    (∀ endpoint payload now,
      (LocalCache.enqueue_sync q endpoint payload now).entries =
        q.entries ++ [⟨q.nextId, payload, endpoint, now⟩] ∧
      (LocalCache.enqueue_sync q endpoint payload now).nextId = q.nextId + 1) := by
  obtain ⟨es, ni⟩ := q
  refine ⟨ServerSync.processLoop_attempts deliver es ⟨es, ni⟩, ?_,
    ServerSync.processLoop_nextId deliver es ⟨es, ni⟩,
    fun endpoint payload now => ⟨rfl, rfl⟩⟩
  have h := ServerSync.processLoop_entries deliver es [] ni (by simpa using hp)
  simpa using h

/-- The pending outbox used by the C9 witness: three rows, ids 1, 2, 3. -/
def sampleOutbox : SyncQueue :=
  ⟨[⟨1, "w1", "save_weights", 0⟩, ⟨2, "s1", "save_session", 0⟩,
    ⟨3, "w2", "save_weights", 0⟩], 4⟩

/-- Delivery outcome used by the C9 witness: the POST for row 1 fails,
rows 2 and 3 succeed. -/
def sampleDeliver : OutboxEntry → Bool := fun e => e.id != 1

/-- Claim C9 witness: on the concrete queue, all three ids are attempted in
order even though row 1 fails, and only the failed row remains. -/
theorem C9_sync_pass_witness :
    (ServerSync.process_sync_queue sampleDeliver sampleOutbox).2 = [1, 2, 3] ∧
    (ServerSync.process_sync_queue sampleDeliver sampleOutbox).1.entries =
      [⟨1, "w1", "save_weights", 0⟩] := by
  have h := C9_sync_pass sampleDeliver sampleOutbox (by decide)
  exact ⟨h.1.trans rfl, h.2.1.trans rfl⟩

/-- Claim C1 counterexample: the write paths are send-first — in every
case (success or failure, weights or session) the trace does not put an
outbox append before the remote attempt, refuting "appended to the outbox
before any remote delivery attempt is made". -/
theorem C1_counterexample :
    loggedBeforeSend (ServerSync.push_weights false emptySyncQueue "w" 0).2 = false ∧
    loggedBeforeSend (ServerSync.push_weights true emptySyncQueue "w" 0).2 = false ∧
    loggedBeforeSend (ServerSync.push_session false emptySyncQueue "s" 0).2 = false ∧
    loggedBeforeSend (ServerSync.push_session true emptySyncQueue "s" 0).2 = false :=
  ⟨rfl, rfl, rfl, rfl⟩

/-- Claim C1 (amended): each backend write is attempted remotely first;
the payload is appended to the outbox exactly when the remote attempt
fails — after the attempt, not before it — so a failed send remains
queued for redelivery, while a successful send never touches the outbox. -/
theorem C1_amended_outbox_on_failure (remote_ok : Bool) (q : SyncQueue)
    (w s : String) (now : ℤ) :
    ((ServerSync.push_weights remote_ok q w now).2.head? =
      some (.remoteAttempt "save_weights")) ∧
    (remote_ok = true → (ServerSync.push_weights remote_ok q w now).1 = q) ∧
    (remote_ok = false →
      (ServerSync.push_weights remote_ok q w now).1.entries =
        q.entries ++ [⟨q.nextId, w, "save_weights", now⟩]) ∧
    ((ServerSync.push_session remote_ok q s now).2.head? =
      some (.remoteAttempt "save_session")) ∧
    (remote_ok = true → (ServerSync.push_session remote_ok q s now).1 = q) ∧
    (remote_ok = false →
      (ServerSync.push_session remote_ok q s now).1.entries =
        q.entries ++ [⟨q.nextId, s, "save_session", now⟩]) := by
  cases remote_ok <;>
    simp [ServerSync.push_weights, ServerSync.push_session,
      LocalCache.enqueue_sync]

/-- Claim C1 witness: a failed weight push appends the payload to the
outbox with the next AUTOINCREMENT id. -/
theorem C1_amended_witness :
    (ServerSync.push_weights false emptySyncQueue "w" 0).1.entries =
      emptySyncQueue.entries ++ [⟨1, "w", "save_weights", 0⟩] :=
  (C1_amended_outbox_on_failure false emptySyncQueue "w" "s" 0).2.2.1 rfl

/-! ## Components/session_monitor.py

`session_monitor.py` declares its own `Reservation` dataclass (id, station,
slot, vehicle, ISO start time, duration, status); it lives in the
`SessionMonitor` namespace here. `start_time` is the epoch-second value of
the ISO string, and `datetime.utcnow()` readings enter as explicit `now`
parameters. -/

namespace SessionMonitor

structure Reservation where
  reservation_id : String
  station_id : String
  slot_id : String
  vehicle_id : String
  start_time : ℤ
  duration_min : ℤ
  status : String
deriving DecidableEq, Repr

structure TelemetryData where
  charging_progress_pct : ℚ
  power_kw : ℚ
  energy_kwh : ℚ
  session_status : String
  timestamp : String
deriving DecidableEq, Repr

structure FaultAlert where
  fault_type : String
  severity : String
  station_id : String
  slot_id : String
  timestamp : String
deriving DecidableEq, Repr

structure DelayResult where
  reservation_id : String
  new_eta : ℤ
  delay_minutes : ℤ
  severity : String
deriving DecidableEq, Repr

/-- The mutable fields of a `SessionMonitor` instance. -/
structure MonState where
  reservation : Option Reservation
  station_location : Option LatLon
  last_gps : Option LatLon
  telemetry : Option TelemetryData
  session_start_time : Option ℤ
  last_telemetry_time : Option ℤ
deriving DecidableEq, Repr

/-- `SessionMonitor.__init__`: every tracking field starts as `None`. -/
def initState : MonState := ⟨none, none, none, none, none, none⟩

/-- `SessionMonitor.start_session_monitoring(reservation,
station_location)`: rebind the monitor to a reservation and its station
location, resetting the session-start, telemetry and last-telemetry-time
fields (but not `_last_gps`). -/
def start_session_monitoring (st : MonState) (r : Reservation)
    (loc : LatLon) : MonState :=
  {st with
    reservation := some r,
    station_location := some loc,
    session_start_time := none,
    telemetry := none,
    last_telemetry_time := none}

/-- `SessionMonitor._estimate_eta_minutes`, given the `distance_km`
produced by `_haversine(current, target)`:
`int(distance_km / avg_speed * 60)`. -/
def estimate_eta_minutes (cfg : UAConfig) (distance_km : ℚ) : ℤ :=
  ratTrunc (distance_km / cfg.default_avg_speed_kmph * 60)

/-- `SessionMonitor.update_eta(current_gps)`: `None` unless both a
reservation and a station location are bound (checked before `_last_gps`
is updated); otherwise compute the projected arrival
`now + eta_minutes`, the delay in whole minutes against the reserved
start, return `None` when that delay is ≤ 0, and otherwise classify it
against the two ascending thresholds. `distance_km` abstracts
`_haversine(current_gps, station_location)`. -/
def update_eta (cfg : UAConfig) (st : MonState) (current_gps : LatLon)
    (now : ℤ) (distance_km : ℚ) : MonState × Option DelayResult :=
  match st.reservation, st.station_location with
  | some r, some _loc =>
    let st2 := {st with last_gps := some current_gps}
    let eta_minutes := estimate_eta_minutes cfg distance_km
    let new_eta_time := now + eta_minutes * 60
    let delay_minutes := ratTrunc (((new_eta_time - r.start_time : ℤ) : ℚ) / 60)
    if delay_minutes ≤ 0 then (st2, none)
    else
      (st2,
       some ⟨r.reservation_id, new_eta_time, delay_minutes,
         if delay_minutes ≥ cfg.no_show_threshold_min then "NO_SHOW"
         else if delay_minutes ≥ cfg.major_delay_threshold_min then "MAJOR"
         else "MINOR"⟩)
  | _, _ => (st, none)

/-- `SessionMonitor.receive_telemetry`: last-write-wins for the telemetry
snapshot and its arrival time; the first `IN_PROGRESS` status latches the
session start. -/
def receive_telemetry (st : MonState) (data : TelemetryData) (now : ℤ) :
    MonState :=
  let st2 := {st with telemetry := some data, last_telemetry_time := some now}
  if data.session_status = "IN_PROGRESS" ∧ st.session_start_time = none then
    {st2 with session_start_time := some now}
  else st2

/-- `SessionMonitor.telemetry_timeout_detected`: `False` when no telemetry
has ever been received; otherwise compare the elapsed seconds against the
configured timeout. -/
def telemetry_timeout_detected (cfg : UAConfig) (st : MonState) (now : ℤ) :
    Bool :=
  match st.last_telemetry_time with
  | none => false
  | some t => if now - t > cfg.telemetry_timeout_sec then true else false

/-- `SessionMonitor.check_session_status`: completed iff the latest
telemetry status is COMPLETED. -/
def check_session_status (st : MonState) : Bool :=
  match st.telemetry with
  | none => false
  | some t => t.session_status == "COMPLETED"

/-- `SessionMonitor.handle_fault`: cancellation is required exactly for
CRITICAL severity. -/
def handle_fault (alert : FaultAlert) : Bool :=
  alert.severity == "CRITICAL"

end SessionMonitor

/-- Claim C6: with a reservation and station location bound, `update_eta`
returns no delay result while the projected arrival is at or before the
committed start; once overdue by exactly m whole minutes (m ≥ 1) the
result carries delay m and severity NO_SHOW for m ≥ 30, MAJOR for
15 ≤ m < 30, MINOR for m < 15 — so exactly 15 is MAJOR, exactly 30 is
NO_SHOW, and 14 and 29 are one severity lower. -/
theorem C6_delay_severity (st : SessionMonitor.MonState)
    (r : SessionMonitor.Reservation) (loc current_gps : LatLon)
    (now : ℤ) (distance_km : ℚ)
    (hr : st.reservation = some r) (hl : st.station_location = some loc) :
    (now + SessionMonitor.estimate_eta_minutes uaConfig distance_km * 60 ≤
        r.start_time →
      (SessionMonitor.update_eta uaConfig st current_gps now distance_km).2 =
        none) ∧
    (∀ m : ℤ, 1 ≤ m →
      now + SessionMonitor.estimate_eta_minutes uaConfig distance_km * 60 -
          r.start_time = 60 * m →
      (SessionMonitor.update_eta uaConfig st current_gps now distance_km).2 =
        some ⟨r.reservation_id,
          now + SessionMonitor.estimate_eta_minutes uaConfig distance_km * 60,
          m, if 30 ≤ m then "NO_SHOW" else if 15 ≤ m then "MAJOR"
             else "MINOR"⟩) := by
  simp only [SessionMonitor.update_eta, hr, hl]
  constructor
  · intro hE
    have h2 : ratTrunc (((now + SessionMonitor.estimate_eta_minutes uaConfig
        distance_km * 60 - r.start_time : ℤ) : ℚ) / 60) ≤ 0 := by
      apply ratTrunc_nonpos
      apply div_nonpos_of_nonpos_of_nonneg _ (by norm_num)
      exact_mod_cast sub_nonpos.mpr hE
    rw [if_pos h2]
  · intro m hm hEq
    have h3 : ((now + SessionMonitor.estimate_eta_minutes uaConfig
        distance_km * 60 - r.start_time : ℤ) : ℚ) = ((60 * m : ℤ) : ℚ) := by
      exact_mod_cast hEq
    rw [h3, ratTrunc_sixty_mul]
    have hpos : ¬ m ≤ 0 := by omega
    rw [if_neg hpos]
    simp only [uaConfig, ge_iff_le]

/-- A monitor state bound to a reservation starting at epoch second 0. -/
def sampleMonState : SessionMonitor.MonState :=
  ⟨some ⟨"res-1", "st-1", "slot-1", "veh-1", 0, 60, "CONFIRMED"⟩,
   some ⟨13, 77⟩, none, none, none, none⟩

/-- Claim C6 witness: at distance 0 (eta 0 minutes) the projected arrival
is the current time, so calling at now = 900 s (15 min late) yields
exactly the MAJOR boundary; the severity at the 30/14/29-minute inputs
follows the same application of the theorem. -/
theorem C6_delay_severity_witness :
    (SessionMonitor.update_eta uaConfig sampleMonState ⟨13, 77⟩ 900 0).2 =
      some ⟨"res-1", 900, 15, "MAJOR"⟩ ∧
    (SessionMonitor.update_eta uaConfig sampleMonState ⟨13, 77⟩ 1800 0).2 =
      some ⟨"res-1", 1800, 30, "NO_SHOW"⟩ ∧
    (SessionMonitor.update_eta uaConfig sampleMonState ⟨13, 77⟩ 840 0).2 =
      some ⟨"res-1", 840, 14, "MINOR"⟩ ∧
    (SessionMonitor.update_eta uaConfig sampleMonState ⟨13, 77⟩ 1740 0).2 =
      some ⟨"res-1", 1740, 29, "MAJOR"⟩ ∧
    (SessionMonitor.update_eta uaConfig sampleMonState ⟨13, 77⟩ (-60) 0).2 =
      none := by
  have he : SessionMonitor.estimate_eta_minutes uaConfig 0 = 0 := by
    simp [SessionMonitor.estimate_eta_minutes, ratTrunc, uaConfig]
  refine ⟨?_, ?_, ?_, ?_, ?_⟩
  · have h := (C6_delay_severity sampleMonState _ ⟨13, 77⟩ ⟨13, 77⟩ 900 0 rfl
      rfl).2 15 (by omega) (by rw [he]; norm_num)
    rw [h, he]
    norm_num
  · have h := (C6_delay_severity sampleMonState _ ⟨13, 77⟩ ⟨13, 77⟩ 1800 0 rfl
      rfl).2 30 (by omega) (by rw [he]; norm_num)
    rw [h, he]
    norm_num
  · have h := (C6_delay_severity sampleMonState _ ⟨13, 77⟩ ⟨13, 77⟩ 840 0 rfl
      rfl).2 14 (by omega) (by rw [he]; norm_num)
    rw [h, he]
    norm_num
  · have h := (C6_delay_severity sampleMonState _ ⟨13, 77⟩ ⟨13, 77⟩ 1740 0 rfl
      rfl).2 29 (by omega) (by rw [he]; norm_num)
    rw [h, he]
    norm_num
  · exact (C6_delay_severity sampleMonState _ ⟨13, 77⟩ ⟨13, 77⟩ (-60) 0 rfl
      rfl).1 (by rw [he]; norm_num)

/-- Claim C10: if no telemetry has been received since the monitor was
created or since it was last rebound by `start_session_monitoring`,
`telemetry_timeout_detected` returns false no matter how much time has
elapsed: the last-telemetry field is `None` at creation and reset to
`None` on every rebind, and a `None` field short-circuits to false. -/
theorem C10_no_telemetry_no_timeout (cfg : UAConfig)
    (st : SessionMonitor.MonState) (r : SessionMonitor.Reservation)
    (loc : LatLon) (now : ℤ)
    (h : st.last_telemetry_time = none) :
    (SessionMonitor.telemetry_timeout_detected cfg st now = false) ∧
    (SessionMonitor.initState.last_telemetry_time = none) ∧
    ((SessionMonitor.start_session_monitoring st r loc).last_telemetry_time =
      none) ∧
    (∀ now2 : ℤ, SessionMonitor.telemetry_timeout_detected cfg
        (SessionMonitor.start_session_monitoring st r loc) now2 = false) := by
  refine ⟨?_, rfl, rfl, fun now2 => rfl⟩
  simp [SessionMonitor.telemetry_timeout_detected, h]

/-- Claim C10 witness: a monitor rebound after having already received
telemetry (so its last-telemetry field was non-None before the rebind)
reports no timeout arbitrarily far in the future. -/
theorem C10_no_telemetry_no_timeout_witness :
    SessionMonitor.telemetry_timeout_detected uaConfig
      (SessionMonitor.start_session_monitoring
        {sampleMonState with last_telemetry_time := some 5}
        ⟨"res-2", "st-1", "slot-2", "veh-1", 0, 60, "CONFIRMED"⟩
        ⟨13, 77⟩) 99999999 = false :=
  (C10_no_telemetry_no_timeout uaConfig
    {sampleMonState with last_telemetry_time := none}
    ⟨"res-2", "st-1", "slot-2", "veh-1", 0, 60, "CONFIRMED"⟩
    ⟨13, 77⟩ 0 rfl).2.2.2 99999999

/-! ## Components/recommendation_manager.py -/

structure StationOption where
  station_id : String
  station_name : String
  rank : ℕ
  estimated_wait_min : ℤ
  estimated_cost : ℚ
  distance_km : ℚ
  available_slots : ℤ
  charger_type : String
  power_kw : ℚ
  operator : String
deriving DecidableEq, Repr

structure SelectionResult where
  action : String
  station_id : Option String
deriving DecidableEq, Repr

namespace RecommendationManager

/-- The mutable fields of a `RecommendationManager` instance. -/
structure State where
  ranked_stations : List StationOption
  deferred : Bool
deriving Repr

/-- `RecommendationManager.__init__`. -/
def initState : State := ⟨[], false⟩

/-- `RecommendationManager.receive_ranked_stations`: replace the ranked
list wholesale and clear the deferred flag. -/
def receive_ranked_stations (_st : State) (stations : List StationOption) :
    State :=
  ⟨stations, false⟩

/-- `RecommendationManager.handle_user_selection`: uppercase the action;
for ACCEPT a falsy (`None`/empty) station id raises, as does an id absent
from the current ranked list; REJECT returns without mutation; DEFER sets
the deferred flag; anything else raises. A raise happens before any
mutation, so the caller observes the unchanged manager state. -/
def handle_user_selection (st : State) (action : String)
    (station_id : Option String) : Except String (State × SelectionResult) :=
  let act := pyUpper action
  if act = "ACCEPT" then
    if optStrTruthy station_id then
      if st.ranked_stations.any (fun s => some s.station_id == station_id) then
        .ok (st, ⟨"ACCEPT", station_id⟩)
      else
        .error "Invalid station ID — not in CA list"
    else
      .error "Station ID required for ACCEPT"
  else if act = "REJECT" then
    .ok (st, ⟨"REJECT", none⟩)
  else if act = "DEFER" then
    .ok ({st with deferred := true}, ⟨"DEFER", none⟩)
  else
    .error "Invalid action. Use ACCEPT/REJECT/DEFER"

end RecommendationManager

/-! ## orchestrator/ua_orchestrator.py -/

inductive UAState
  | IDLE
  | MONITORING
  | REQUESTING_STATIONS
  | AWAITING_USER_SELECTION
  | RESERVATION_CONFIRMED
  | SESSION_ACTIVE
  | SESSION_COMPLETED
  | DEFERRED
  | ERROR
deriving DecidableEq, Repr

namespace UAOrchestrator

/-- The orchestrator fields the embedded operations touch: the state
variable, the recommendation manager, and `cache.active_reservation`. -/
structure State where
  uaState : UAState
  recommendation_manager : RecommendationManager.State
  active_reservation : Option SessionMonitor.Reservation
deriving Repr

/-- `UAOrchestrator.handle_user_action(action, station_id)`: run the
recommendation manager's validation first (its raise propagates to the
caller with no orchestrator mutation); then the ACCEPT branch — guarded
by the original, un-uppercased action string and a truthy station id —
forwards to `_confirm_reservation`, whose Coordinator call either yields
a reservation (state becomes RESERVATION_CONFIRMED) or raises internally
(caught there; state becomes MONITORING); REJECT leaves the state alone
and DEFER moves it to DEFERRED. Returns the orchestrator state after the
call, the station ids sent to `CAClient.confirm_station_selection` in
order, and the exception propagated to the caller, if any. `confirm`
abstracts that remote call's outcome. -/
def handle_user_action (o : State) (action : String)
    (station_id : Option String)
    (confirm : String → Except String SessionMonitor.Reservation) :
    State × List String × Option String :=
  match RecommendationManager.handle_user_selection o.recommendation_manager action station_id with
  | .error e => (o, [], some e)
  | .ok (rec2, _result) =>
    let o2 : State := {o with recommendation_manager := rec2}
    if action = "ACCEPT" ∧ optStrTruthy station_id = true then
      match station_id with
      | some sid =>
        match confirm sid with
        | .ok resv =>
          ({o2 with
            active_reservation := some resv,
            uaState := .RESERVATION_CONFIRMED}, [sid], none)
        | .error _ => ({o2 with uaState := .MONITORING}, [sid], none)
      | none => (o2, [], none)
    else if action = "REJECT" then
      (o2, [], none)
    else if action = "DEFER" then
      ({o2 with uaState := .DEFERRED}, [], none)
    else
      (o2, [], none)

/-- A positional argument of a Python call to
`SessionMonitor.start_session_monitoring`: the cached reservation
(possibly `None`) or a station location. -/
inductive PyArg
  | reservationArg (r : Option SessionMonitor.Reservation)
  | locationArg (l : LatLon)
deriving Repr

/-- Python call semantics of
`SessionMonitor.start_session_monitoring(self, reservation,
station_location)`: both positional parameters are required (no
defaults), so a call providing fewer raises `TypeError` before the body
runs; a call passing `None` as the reservation reaches the body but fails
on `reservation.reservation_id` in its log statement. -/
def callStartSessionMonitoring (mon : SessionMonitor.MonState)
    (args : List PyArg) : Except String SessionMonitor.MonState :=
  match args with
  | [.reservationArg (some r), .locationArg loc] =>
    .ok (SessionMonitor.start_session_monitoring mon r loc)
  | [.reservationArg none, .locationArg _] =>
    .error "AttributeError: NoneType object has no attribute reservation_id"
  | _ =>
    .error "TypeError: start_session_monitoring missing 1 required positional argument: station_location"

/-- `UAOrchestrator._start_session_monitoring`: the source reads
`reservation = self.cache.active_reservation` and calls
`self.session_monitor.start_session_monitoring(reservation)` — one
positional argument, no station location — then sets the state to
SESSION_ACTIVE. -/
def start_session_monitoring_step (o : State)
    (mon : SessionMonitor.MonState) :
    Except String (State × SessionMonitor.MonState) :=
  match callStartSessionMonitoring mon [.reservationArg o.active_reservation] with
  | .error e => .error e
  | .ok mon2 => .ok ({o with uaState := .SESSION_ACTIVE}, mon2)

/-- The `start()` loop wraps `_run_cycle` in try/except: an exception in a
cycle moves the machine to ERROR (and the monitor is left untouched).
This is the RESERVATION_CONFIRMED cycle together with that handler. -/
def run_cycle_reservation_confirmed (o : State)
    (mon : SessionMonitor.MonState) : State × SessionMonitor.MonState :=
  match start_session_monitoring_step o mon with
  | .ok p => p
  | .error _ => ({o with uaState := .ERROR}, mon)

end UAOrchestrator

/-- Claim C4: an Accept decision whose station id is absent from the last
published ranked list always fails validation: `handle_user_action`
propagates the validation error, leaves the orchestrator state (including
the recommendation manager and the state variable) unchanged, and makes
no `confirm_station_selection` call to the Coordinator. -/
theorem C4_invalid_accept_rejected (o : UAOrchestrator.State)
    (action : String) (sid : Option String)
    (confirm : String → Except String SessionMonitor.Reservation)
    (hacc : pyUpper action = "ACCEPT")
    (habs : ∀ s ∈ o.recommendation_manager.ranked_stations, some s.station_id ≠ sid) :
    (UAOrchestrator.handle_user_action o action sid confirm).1 = o ∧
    (UAOrchestrator.handle_user_action o action sid confirm).2.1 = [] ∧
    (UAOrchestrator.handle_user_action o action sid confirm).2.2.isSome =
      true := by
  cases htr : optStrTruthy sid with
  | false =>
    have hsel : RecommendationManager.handle_user_selection
        o.recommendation_manager action sid =
        .error "Station ID required for ACCEPT" := by
      simp [RecommendationManager.handle_user_selection, hacc, htr]
    simp [UAOrchestrator.handle_user_action, hsel]
  | true =>
    have hany : o.recommendation_manager.ranked_stations.any
        (fun s => some s.station_id == sid) = false := by
      rw [List.any_eq_false]
      intro s hs
      simpa using habs s hs
    have hsel : RecommendationManager.handle_user_selection
        o.recommendation_manager action sid =
        .error "Invalid station ID — not in CA list" := by
      simp [RecommendationManager.handle_user_selection, hacc, htr, hany]
    simp [UAOrchestrator.handle_user_action, hsel]

/-- The ranked list published for the C4/C2 witnesses: one station. -/
def sampleStation : StationOption :=
  ⟨"st-1", "Plaza Charge", 1, 5, 12, 3, 2, "CCS2", 60, "GridCo"⟩

/-- An orchestrator awaiting user selection with `sampleStation` as the
last published ranked list. -/
def sampleOrchState : UAOrchestrator.State :=
  ⟨.AWAITING_USER_SELECTION, ⟨[sampleStation], false⟩, none⟩

/-- Claim C4 witness: accepting the unknown id `st-99` against the list
`[st-1]` is rejected with no state change and no Coordinator call. -/
theorem C4_invalid_accept_witness :
    (UAOrchestrator.handle_user_action sampleOrchState "ACCEPT"
      (some "st-99") (fun _ => .error "unused")).1 = sampleOrchState ∧
    (UAOrchestrator.handle_user_action sampleOrchState "ACCEPT"
      (some "st-99") (fun _ => .error "unused")).2.1 = [] ∧
    (UAOrchestrator.handle_user_action sampleOrchState "ACCEPT"
      (some "st-99") (fun _ => .error "unused")).2.2.isSome = true :=
  C4_invalid_accept_rejected sampleOrchState "ACCEPT" (some "st-99")
    (fun _ => .error "unused") rfl (by decide)

/-- Claim C2 (code bug): in the RESERVATION_CONFIRMED cycle the source
calls `start_session_monitoring` with only the reservation, although the
method requires the station location as a second positional argument, so
the call raises `TypeError` for every orchestrator state: the Session
Monitor is never initialized, the state never becomes SESSION_ACTIVE, and
the loop's exception handler drives the machine to ERROR instead. -/
theorem C2_reservation_confirmed_cycle_raises (o : UAOrchestrator.State)
    (mon : SessionMonitor.MonState) :
    (UAOrchestrator.start_session_monitoring_step o mon =
      .error "TypeError: start_session_monitoring missing 1 required positional argument: station_location") ∧
    (UAOrchestrator.run_cycle_reservation_confirmed o mon =
      ({o with uaState := .ERROR}, mon)) := by
  obtain ⟨u, rm, ar⟩ := o
  cases ar <;> exact ⟨rfl, rfl⟩
